import Mathlib

/-!
Shallow embedding of the contact-form backend (src/main.py) and proofs about it.

The repository is a small FastAPI service with three endpoints:
  * `POST /api/contact` — validates a submission, attempts SMTP delivery,
    best-effort persists a lead record, and always answers 200 (graceful variant);
  * `GET /test` — a diagnostics endpoint probing the database module;
  * two trivial greeting endpoints.

External collaborators (the SMTP relay reached through `smtplib`, the document
store reached through the local `database` module, and the framework's request
validation) are modelled as explicit behaviour parameters, so every theorem
quantifies over all of their possible behaviours.  Machine effects (exceptions)
are modelled with `Except`.
-/

/-- The process environment, as read by `os.getenv`: a name is either unset
(`none`) or set to a string (possibly empty). -/
abbrev Env := String → Option String

/-- Python truthiness of an `os.getenv` result: `None` and `""` are falsy,
any other string is truthy.  This is the test applied by `if not host or ...`
and by the `x or y` fallback chains in `send_email_smtp`. -/
def truthy : Option String → Bool
  | none => false
  | some s => s != ""

/-- Exceptions that `send_email_smtp` (src/main.py lines 33-68) can raise:
`valueError lit` models the `ValueError` raised by `int(...)` on line 45 when
the `EMAIL_PORT` value `lit` is not an integer literal; `runtimeError` models
the `RuntimeError` raised on line 52 when configuration is missing;
`smtpError` models any exception raised by the SMTP session on lines 65-68,
carrying its `str(e)` message. -/
inductive PyError where
  | valueError (literal : String)
  | runtimeError (msg : String)
  | smtpError (msg : String)
deriving DecidableEq

/-- The `str(e)` rendering of a modelled exception, as captured by the handler
on line 101 of src/main.py. -/
def pyErrStr : PyError → String
  | .valueError lit => "invalid literal for int() with base 10: \x27" ++ lit ++ "\x27"
  | .runtimeError m => m
  | .smtpError m => m

/-- Everything `send_email_smtp` hands to the SMTP session on lines 54-68:
resolved connection data, credentials, addresses and message content. -/
structure SmtpParams where
  host : String
  port : Int
  user : String
  password : String
  sender : String
  recipient : String
  subject : String
  htmlBody : String
  textBody : String
deriving DecidableEq

/-- Behaviour of the external SMTP relay/library for one send attempt
(lines 65-68 of src/main.py): success, or an exception with message `e`. -/
abbrev Net := SmtpParams → Except String Unit

/-- Characters stripped by Python `int()` around an integer literal. -/
def isSpaceChar (c : Char) : Bool :=
  c == ' ' || c == '\t' || c == '\n' || c == '\r' || c == '\x0b' || c == '\x0c'

/-- Strip leading and trailing whitespace from a character list. -/
def pyStrip (cs : List Char) : List Char :=
  ((cs.dropWhile isSpaceChar).reverse.dropWhile isSpaceChar).reverse

/-- No two adjacent underscores (part of Python integer-literal grammar). -/
def noAdjacentUnderscore : List Char → Bool
  | a :: b :: t => !(a == '_' && b == '_') && noAdjacentUnderscore (b :: t)
  | _ => true

/-- A valid Python digit group: nonempty, only digits and single underscores
strictly between digits. -/
def digitGroupOk (cs : List Char) : Bool :=
  !cs.isEmpty &&
  cs.all (fun c => c.isDigit || c == '_') &&
  ((cs.head?.map Char.isDigit).getD false) &&
  ((cs.getLast?.map Char.isDigit).getD false) &&
  noAdjacentUnderscore cs

/-- Decimal value of a digit list (underscores already removed). -/
def digitsToNat (cs : List Char) : Nat :=
  cs.foldl (fun a c => 10 * a + (c.toNat - 48)) 0

/-- Python `int(s)` on a string: optional surrounding whitespace, optional
sign, then a digit group; `none` models the `ValueError` raised otherwise.
This is what line 45 of src/main.py applies to the `EMAIL_PORT` value. -/
def pythonIntParse (s : String) : Option Int :=
  let cs := pyStrip s.data
  let signBody : Bool × List Char :=
    match cs with
    | '+' :: t => (false, t)
    | '-' :: t => (true, t)
    | t => (false, t)
  if digitGroupOk signBody.2 then
    let v : Nat := digitsToNat (signBody.2.filter (fun c => c != '_'))
    some (if signBody.1 then -(v : Int) else (v : Int))
  else none

/-- Line 49 of src/main.py:
`recipient = os.getenv("EMAIL_TO") or os.getenv("PERSONAL_EMAIL") or "hemenbhasin@gmail.com"`
using Python `or`, so empty strings fall through like unset variables. -/
def resolveRecipient (env : Env) : String :=
  if truthy (env "EMAIL_TO") then (env "EMAIL_TO").getD ""
  else if truthy (env "PERSONAL_EMAIL") then (env "PERSONAL_EMAIL").getD ""
  else "hemenbhasin@gmail.com"

/-- Line 48 of src/main.py: `sender = os.getenv("EMAIL_FROM") or user`. -/
def resolveSender (env : Env) : Option String :=
  if truthy (env "EMAIL_FROM") then env "EMAIL_FROM" else env "EMAIL_USER"

/-- Line 45 of src/main.py, before the `int(...)` call:
`os.getenv("EMAIL_PORT", "587")`. -/
def resolvePortStr (env : Env) : String :=
  (env "EMAIL_PORT").getD "587"

/-- The `RuntimeError` message raised on line 52 of src/main.py. -/
def configMsg : String :=
  "Email service is not configured on the server (set EMAIL_HOST, EMAIL_USER, EMAIL_PASS)."

/-- The fully resolved parameter block handed to the SMTP session on lines
54-68 of src/main.py. -/
def smtpParamsOf (env : Env) (port : Int) (subject htmlBody textBody : String) : SmtpParams :=
  { host := (env "EMAIL_HOST").getD "", port := port,
    user := (env "EMAIL_USER").getD "", password := (env "EMAIL_PASS").getD "",
    sender := (resolveSender env).getD "", recipient := resolveRecipient env,
    subject := subject, htmlBody := htmlBody, textBody := textBody }

/-- Embedding of `send_email_smtp` (src/main.py lines 33-68).  Evaluation
order follows the source: the port is parsed by `int()` on line 45 before the
configuration check on line 51, so a malformed `EMAIL_PORT` raises first.
Only after the configuration check passes is the external SMTP behaviour
`net` consulted, with the fully resolved parameters. -/
def send_email_smtp (env : Env) (net : Net) (subject htmlBody textBody : String) :
    Except PyError Unit :=
  match pythonIntParse (resolvePortStr env) with
  | none => .error (.valueError (resolvePortStr env))
  | some port =>
    if !truthy (env "EMAIL_HOST") || !truthy (env "EMAIL_USER") || !truthy (env "EMAIL_PASS") then
      .error (.runtimeError configMsg)
    else
      match net (smtpParamsOf env port subject htmlBody textBody) with
      | .ok _ => .ok ()
      | .error e => .error (.smtpError e)

/-- A validated contact submission (the `ContactMessage` pydantic model of
src/main.py lines 27-30, after validation has succeeded). -/
structure ContactMessage where
  name : String
  email : String
  message : String
deriving DecidableEq

/-- Python `str.replace` for a single-character needle, as used on line 88 of
src/main.py: every occurrence of `c` is replaced by `repl`. -/
def replaceChar (c : Char) (repl : List Char) : List Char → List Char
  | [] => []
  | a :: t => (if a == c then repl else [a]) ++ replaceChar c repl t

/-- The HTML body built by the f-string on lines 84-89 of src/main.py,
with newlines in the message turned into `<br/>`. -/
def renderHtml (m : ContactMessage) : String :=
  "\n    <h2>New message from portfolio</h2>\n    <p><strong>Name:</strong> " ++ m.name ++
  "</p>\n    <p><strong>Email:</strong> " ++ m.email ++
  "</p>\n    <p><strong>Message:</strong><br/>" ++
  String.mk (replaceChar '\n' "<br/>".data m.message.data) ++ "</p>\n    "

/-- The plain-text body built on line 90 of src/main.py. -/
def renderText (m : ContactMessage) : String :=
  "New message from portfolio\nName: " ++ m.name ++ "\nEmail: " ++ m.email ++ "\n\n" ++ m.message

/-- Modelled from the spec: the `ContactLead` record of `schemas.py`, which is
not under src/.  Per spec section 3 it is a plain record holding the submission
fields copied unchanged plus the delivery outcome. -/
structure ContactLead where
  name : String
  email : String
  message : String
  delivered : Bool
  error : Option String
deriving DecidableEq

/-- Modelled from the spec: the behaviour of `database.create_document`
(`database.py` is not under src/): a write to a named collection that either
succeeds or raises.  The handler swallows either outcome, so every theorem
quantifies over all store behaviours. -/
abbrev Store := String → ContactLead → Except String Unit

/-- The body of the `POST /api/contact` response (src/main.py lines 117-125);
`status` is the HTTP status code, 200 for a plain dict return in FastAPI. -/
structure ContactResponse where
  status : Nat
  ok : Bool
  message : String
  note : Option String
deriving DecidableEq

/-- The success body returned on line 118 of src/main.py. -/
def successResponse : ContactResponse :=
  { status := 200, ok := true, message := "Message sent successfully", note := none }

/-- The graceful-fallback body returned on lines 121-125 of src/main.py. -/
def fallbackResponse : ContactResponse :=
  { status := 200, ok := true,
    message := "Message received. We\x27ll get back to you soon.",
    note := some "Email delivery not configured on server; message saved." }

/-- Observable result of one run of the `contact` handler: the HTTP response,
the captured `delivery_error` local, the `ContactLead` it constructs, and the
outcome of the (swallowed) store write. -/
structure HandlerResult where
  response : ContactResponse
  deliveryError : Option String
  lead : ContactLead
  storeResult : Except String Unit

/-- The send attempt made by the handler (line 97 of src/main.py), wiring the
fixed subject and the rendered bodies into `send_email_smtp`. -/
def contactSend (env : Env) (net : Net) (msg : ContactMessage) : Except PyError Unit :=
  send_email_smtp env net "New portfolio contact" (renderHtml msg) (renderText msg)

/-- Lines 92-101 of src/main.py: the `delivered` flag and the captured
`delivery_error = str(e)` local, as a pair. -/
def deliveryOf : Except PyError Unit → Bool × Option String
  | .ok _ => (true, none)
  | .error e => (false, some (pyErrStr e))

/-- Line 110 of src/main.py:
`error=(delivery_error[:300] if delivery_error else None)` — Python truthiness,
so an empty captured message also yields `None`. -/
def leadError : Option String → Option String
  | none => none
  | some s => if s != "" then some (String.mk (s.data.take 300)) else none

/-- Embedding of the `contact` handler (src/main.py lines 81-125) on an
already-validated submission: attempt delivery (catching any exception),
construct the lead, attempt the store write (outcome swallowed), and answer
200 with the body chosen by the delivery flag alone. -/
def contact (env : Env) (net : Net) (store : Store) (msg : ContactMessage) : HandlerResult :=
  let d := deliveryOf (contactSend env net msg)
  let lead : ContactLead :=
    { name := msg.name, email := msg.email, message := msg.message,
      delivered := d.1, error := leadError d.2 }
  { response := if d.1 then successResponse else fallbackResponse,
    deliveryError := d.2,
    lead := lead,
    storeResult := store "contactlead" lead }

/-- The pydantic field constraints of `ContactMessage` (src/main.py lines
27-30): `name` length in [1,100], `message` length in [1,5000], and the email
accepted by `EmailStr`.  The email grammar lives in the external
email-validator library, so it is abstracted as the parameter `emailValid`. -/
def validContact (emailValid : String → Bool) (name email message : String) : Bool :=
  decide (1 ≤ name.length) && decide (name.length ≤ 100) && emailValid email &&
  decide (1 ≤ message.length) && decide (message.length ≤ 5000)

/-- Outcome of routing a raw `POST /api/contact` body: the framework's 422
validation rejection, or the handler's result. -/
inductive RouteResult where
  | validationFailure (status : Nat)
  | handled (r : HandlerResult)

/-- Modelled from the spec: the framework's request-validation step (spec
sections 4.1 and 6), which runs the `ContactMessage` constraints before the
handler and answers 422 on failure, with no side effect.  The handler (and
hence `net` and `store`) is reached only when validation passes. -/
def contactRoute (emailValid : String → Bool) (env : Env) (net : Net) (store : Store)
    (name email message : String) : RouteResult :=
  if validContact emailValid name email message then
    .handled (contact env net store { name := name, email := email, message := message })
  else
    .validationFailure 422

/-- Modelled from the spec: the handle exported by the `database` module
(`database.py` is not under src/).  Per spec section 6 it exposes a name
attribute (absent when `hasattr(db, "name")` is false) and a
`list_collection_names()` call that returns names or raises. -/
structure DbHandle where
  nameAttr : Option String
  listCollectionsResult : Except String (List String)

/-- Modelled from the spec: the possible outcomes of `from database import db`
on line 142 of src/main.py — an `ImportError`, some other exception raised
while importing (message `msg`), or a successful import whose `db` value may
be `None`. -/
inductive DbImport where
  | importErr
  | otherErr (msg : String)
  | imported (db : Option DbHandle)

/-- The diagnostics response assembled by `test_database` (src/main.py lines
131-138): the initial dict, with `database_url` and `database_name` starting
as `None`. -/
structure DiagResponse where
  backend : String
  database : String
  database_url : Option String
  database_name : Option String
  connection_status : String
  collections : List String
deriving DecidableEq

/-- The initial response dict of lines 131-138 of src/main.py. -/
def diagInit : DiagResponse :=
  { backend := "✅ Running", database := "❌ Not Available",
    database_url := none, database_name := none,
    connection_status := "Not Connected", collections := [] }

/-- Lines 140-148 and 157-163 of src/main.py: the availability marking made
from the import outcome, before the collection enumeration is attempted. -/
def importStep (imp : DbImport) : DiagResponse :=
  match imp with
  | .importErr =>
      { diagInit with database := "❌ Database module not found (run enable-database first)" }
  | .otherErr e =>
      { diagInit with database := "❌ Error: " ++ String.mk (e.data.take 50) }
  | .imported none =>
      { diagInit with database := "⚠️  Available but not initialized" }
  | .imported (some db) =>
      { diagInit with
        database := "✅ Available",
        database_url := some "✅ Configured",
        database_name := some (db.nameAttr.getD "✅ Connected"),
        connection_status := "Connected" }

/-- Lines 150-156 of src/main.py: the inner fault-tolerant attempt to list
collections, which upgrades the status on success and downgrades it to a
truncated error status on failure, leaving every other field alone. -/
def collectionsProbe (db : DbHandle) (r : DiagResponse) : DiagResponse :=
  match db.listCollectionsResult with
  | .ok cols => { r with collections := cols.take 10, database := "✅ Connected & Working" }
  | .error e => { r with database := "⚠️  Connected but Error: " ++ String.mk (e.data.take 50) }

/-- Lines 165-167 of src/main.py: the unconditional final overwrite of
`database_url` and `database_name` with environment presence flags. -/
def envFlagsStep (env : Env) (r : DiagResponse) : DiagResponse :=
  { r with
    database_url := some (if truthy (env "DATABASE_URL") then "✅ Set" else "❌ Not Set"),
    database_name := some (if truthy (env "DATABASE_NAME") then "✅ Set" else "❌ Not Set") }

/-- Embedding of the `test_database` handler (src/main.py lines 128-169):
mark availability from the import outcome, probe collections only when a
non-null handle was obtained, then overwrite the env-flag fields.  Every
collaborator failure is caught by the source's `try`/`except` blocks, so the
embedding is a total function of the collaborator behaviours. -/
def test_database (imp : DbImport) (env : Env) : DiagResponse :=
  envFlagsStep env
    (match imp with
     | .imported (some db) => collectionsProbe db (importStep (.imported (some db)))
     | _ => importStep imp)

/-! ### Concrete fixtures used by counterexamples and witnesses -/

/-- An environment with no variable set. -/
def envNone : Env := fun _ => none

/-- An environment whose only setting is a non-numeric `EMAIL_PORT`. -/
def envPortBad : Env := fun k => if k = "EMAIL_PORT" then some "abc" else none

/-- A fully configured SMTP environment (password `hunter2`). -/
def envOk : Env := fun k =>
  if k = "EMAIL_HOST" then some "smtp.example.com"
  else if k = "EMAIL_USER" then some "mailer"
  else if k = "EMAIL_PASS" then some "hunter2"
  else none

/-- A configured environment that additionally sets explicit sender and
recipient addresses. -/
def envFull : Env := fun k =>
  if k = "EMAIL_HOST" then some "smtp.example.com"
  else if k = "EMAIL_USER" then some "mailer"
  else if k = "EMAIL_PASS" then some "hunter2"
  else if k = "EMAIL_FROM" then some "from@x.com"
  else if k = "EMAIL_TO" then some "to@x.com"
  else none

/-- An environment in which `EMAIL_TO` is set, but to the empty string. -/
def envToEmpty : Env := fun k => if k = "EMAIL_TO" then some "" else none

/-- A relay that refuses every connection with a fixed message. -/
def net0 : Net := fun _ => .error "connection refused"

/-- A relay that accepts every send. -/
def netAlways : Net := fun _ => .ok ()

/-- A relay that fails with an exception whose message is empty
(e.g. Python `str(TimeoutError())` is the empty string). -/
def netEmptyErr : Net := fun _ => .error ""

/-- A relay that reports back the recipient and sender it was handed,
used to observe the resolved addresses. -/
def probeNet : Net := fun q => .error (q.recipient ++ "|" ++ q.sender)

/-- A store whose writes succeed. -/
def store0 : Store := fun _ _ => .ok ()

/-- The sample submission from spec section 8. -/
def msgAda : ContactMessage := { name := "Ada", email := "ada@example.com", message := "Hi\nthere" }

/-- A database handle whose collection listing raises with message `boom`. -/
def dbBoom : DbHandle := { nameAttr := none, listCollectionsResult := .error "boom" }

/-! ### Helper lemmas -/

/-- A string whose first component is nonempty is not the empty string. -/
theorem str_ne_empty (pre s : String) (hpre : pre.data ≠ []) : pre ++ s ≠ "" := by
  intro h
  apply hpre
  have h2 : pre.data ++ s.data = [] := congrArg String.data h
  exact (List.append_eq_nil.mp h2).1

/-! ### C1 -/

/-- C1: for every validated submission, and all relay and store behaviours,
the `contact` handler answers status 200 with `ok = true`; the body is the
success body exactly when the send attempt succeeded, and the graceful
fallback body (with the "not configured" note) whenever the send attempt
failed for any reason. -/
theorem contact_always_ok (env : Env) (net : Net) (store : Store) (msg : ContactMessage) :
    (contact env net store msg).response.status = 200 ∧
    (contact env net store msg).response.ok = true ∧
    (contactSend env net msg = .ok () → (contact env net store msg).response = successResponse) ∧
    (∀ e, contactSend env net msg = .error e →
      (contact env net store msg).response = fallbackResponse) := by
  cases h : contactSend env net msg with
  | ok u =>
    cases u
    refine ⟨?_, ?_, fun _ => ?_, fun e he => ?_⟩ <;>
      simp [contact, deliveryOf, h, successResponse, fallbackResponse] at *
  | error er =>
    refine ⟨?_, ?_, fun hok => ?_, fun e he => ?_⟩ <;>
      simp [contact, deliveryOf, h, successResponse, fallbackResponse] at *

/-- C1 witness: with nothing configured, the concrete run returns the graceful
fallback body. -/
theorem contact_always_ok_witness :
    (contact envNone net0 store0 msgAda).response = fallbackResponse :=
  (contact_always_ok envNone net0 store0 msgAda).2.2.2 (.runtimeError configMsg) rfl

/-! ### C2 -/

/-- C2: the `contact` handler's HTTP response is determined solely by the
delivery outcome — two runs that differ only in the behaviour of the
persistence step (which models `ContactLead` construction plus
`create_document`, including any exception) produce identical responses. -/
theorem contact_response_store_independent (env : Env) (net : Net) (msg : ContactMessage)
    (store1 store2 : Store) :
    (contact env net store1 msg).response = (contact env net store2 msg).response := rfl

/-! ### C3 -/

/-- C3 counterexample: with `EMAIL_HOST` (and `EMAIL_USER`, `EMAIL_PASS`)
unset but `EMAIL_PORT` set to the non-numeric string `abc`, `send_email_smtp`
fails with the `int()` `ValueError` raised on line 45 of src/main.py, not with
the configuration `RuntimeError` of line 52 — the claim as stated is false. -/
theorem send_email_smtp_port_counterexample :
    envPortBad "EMAIL_HOST" = none ∧
    send_email_smtp envPortBad net0 "s" "b" "t" = .error (.valueError "abc") ∧
    send_email_smtp envPortBad net0 "s" "b" "t" ≠ .error (.runtimeError configMsg) := by
  refine ⟨rfl, rfl, ?_⟩
  intro h
  have h2 : PyError.valueError "abc" = PyError.runtimeError configMsg := by
    have h3 : Except.error (ε := PyError) (α := Unit) (.valueError "abc") =
        .error (.runtimeError configMsg) := h
    injection h3
  injection h2

/-- C3 amended: whenever `EMAIL_HOST`, `EMAIL_USER` or `EMAIL_PASS` is unset
or empty, `send_email_smtp` fails immediately and makes no network attempt
(its result is the same for every relay behaviour); the failure is the
configuration `RuntimeError` provided the `EMAIL_PORT` value (default "587")
parses as an integer, and otherwise it is the earlier `int()` error. -/
theorem send_email_smtp_missing_config (env : Env) (net1 net2 : Net) (s b t : String)
    (hmiss : truthy (env "EMAIL_HOST") = false ∨ truthy (env "EMAIL_USER") = false ∨
      truthy (env "EMAIL_PASS") = false) :
    send_email_smtp env net1 s b t = send_email_smtp env net2 s b t ∧
    (∃ e, send_email_smtp env net1 s b t = Except.error e) ∧
    (∀ p, pythonIntParse (resolvePortStr env) = some p →
      send_email_smtp env net1 s b t = .error (.runtimeError configMsg)) := by
  cases hp : pythonIntParse (resolvePortStr env) with
  | none =>
    refine ⟨?_, ⟨.valueError (resolvePortStr env), ?_⟩, ?_⟩
    · simp [send_email_smtp, hp]
    · simp [send_email_smtp, hp]
    · intro p hps
      exact absurd hps (by simp)
  | some p =>
    have h1 : send_email_smtp env net1 s b t = .error (.runtimeError configMsg) := by
      simp only [send_email_smtp, hp]
      rcases hmiss with h | h | h <;> simp [h]
    have h2 : send_email_smtp env net2 s b t = .error (.runtimeError configMsg) := by
      simp only [send_email_smtp, hp]
      rcases hmiss with h | h | h <;> simp [h]
    exact ⟨h1.trans h2.symm, ⟨_, h1⟩, fun _ _ => h1⟩

/-- C3 amended witness: with every variable unset, the concrete run fails
with the configuration error and is unaffected by the relay behaviour. -/
theorem send_email_smtp_missing_config_witness :
    send_email_smtp envNone net0 "s" "b" "t" = .error (.runtimeError configMsg) ∧
    send_email_smtp envNone net0 "s" "b" "t" = send_email_smtp envNone netAlways "s" "b" "t" := by
  have h := send_email_smtp_missing_config envNone net0 netAlways "s" "b" "t" (Or.inl rfl)
  exact ⟨h.2.2 587 rfl, h.1⟩

/-! ### C4 -/

/-- C4: any submission whose `name` has length 0 or over 100, or whose
`message` has length 0 or over 5000, or whose email the validator rejects, is
answered with the framework's 422 validation failure, and the routing outcome
is identical for every relay and store behaviour — no mail-send or store-write
call occurs. -/
theorem invalid_contact_rejected (emailValid : String → Bool) (env1 env2 : Env)
    (net1 net2 : Net) (store1 store2 : Store) (name email message : String)
    (hbad : name.length = 0 ∨ 100 < name.length ∨ message.length = 0 ∨
      5000 < message.length ∨ emailValid email = false) :
    contactRoute emailValid env1 net1 store1 name email message = .validationFailure 422 ∧
    contactRoute emailValid env1 net1 store1 name email message =
      contactRoute emailValid env2 net2 store2 name email message := by
  have hv : validContact emailValid name email message = false := by
    rcases hbad with h | h | h | h | h
    · simp [validContact, h]
    · have h2 : decide (name.length ≤ 100) = false := decide_eq_false (by omega)
      simp [validContact, h2]
    · simp [validContact, h]
    · have h2 : decide (message.length ≤ 5000) = false := decide_eq_false (by omega)
      simp [validContact, h2]
    · simp [validContact, h]
  constructor <;> simp [contactRoute, hv]

/-- C4 witness: the empty name is rejected with 422 on a concrete run. -/
theorem invalid_contact_rejected_witness :
    contactRoute (fun _ => true) envNone net0 store0 "" "a@b.c" "hello" =
      .validationFailure 422 :=
  (invalid_contact_rejected (fun _ => true) envNone envNone net0 netAlways store0 store0
    "" "a@b.c" "hello" (Or.inl rfl)).1

/-! ### C5 -/

/-- C5: the diagnostics operation is total over every behaviour of the
database import, the handle and the collection listing — in every case it
returns a complete response whose `backend` field reports up, whose env-flag
fields are populated, whose connection status is one of the two expected
values, and whose `database` field is a nonempty status string (each failure
path degrades it to an error-string status instead of raising). -/
theorem test_database_never_raises (imp : DbImport) (env : Env) :
    (test_database imp env).backend = "✅ Running" ∧
    ((test_database imp env).database_url = some "✅ Set" ∨
      (test_database imp env).database_url = some "❌ Not Set") ∧
    ((test_database imp env).database_name = some "✅ Set" ∨
      (test_database imp env).database_name = some "❌ Not Set") ∧
    ((test_database imp env).connection_status = "Connected" ∨
      (test_database imp env).connection_status = "Not Connected") ∧
    (test_database imp env).database ≠ "" := by
  have hu : (test_database imp env).database_url = some "✅ Set" ∨
      (test_database imp env).database_url = some "❌ Not Set" := by
    cases h : truthy (env "DATABASE_URL") with
    | true => exact Or.inl (by simp [test_database, envFlagsStep, h])
    | false => exact Or.inr (by simp [test_database, envFlagsStep, h])
  have hn : (test_database imp env).database_name = some "✅ Set" ∨
      (test_database imp env).database_name = some "❌ Not Set" := by
    cases h : truthy (env "DATABASE_NAME") with
    | true => exact Or.inl (by simp [test_database, envFlagsStep, h])
    | false => exact Or.inr (by simp [test_database, envFlagsStep, h])
  cases imp with
  | importErr =>
    refine ⟨rfl, hu, hn, Or.inr rfl, ?_⟩
    have h2 : (test_database DbImport.importErr env).database =
        "❌ Database module not found (run enable-database first)" := rfl
    rw [h2]
    decide
  | otherErr e =>
    refine ⟨rfl, hu, hn, Or.inr rfl, ?_⟩
    have h2 : (test_database (DbImport.otherErr e) env).database =
        "❌ Error: " ++ String.mk (e.data.take 50) := rfl
    rw [h2]
    exact str_ne_empty "❌ Error: " (String.mk (e.data.take 50)) (by decide)
  | imported db =>
    cases db with
    | none =>
      refine ⟨rfl, hu, hn, Or.inr rfl, ?_⟩
      have h2 : (test_database (DbImport.imported none) env).database =
          "⚠️  Available but not initialized" := rfl
      rw [h2]
      decide
    | some handle =>
      cases hc : handle.listCollectionsResult with
      | ok cols =>
        refine ⟨?_, hu, hn, Or.inl ?_, ?_⟩
        · simp [test_database, envFlagsStep, collectionsProbe, importStep, diagInit, hc]
        · simp [test_database, envFlagsStep, collectionsProbe, importStep, diagInit, hc]
        · have h2 : (test_database (.imported (some handle)) env).database =
              "✅ Connected & Working" := by
            simp [test_database, envFlagsStep, collectionsProbe, importStep, diagInit, hc]
          rw [h2]
          decide
      | error e =>
        refine ⟨?_, hu, hn, Or.inl ?_, ?_⟩
        · simp [test_database, envFlagsStep, collectionsProbe, importStep, diagInit, hc]
        · simp [test_database, envFlagsStep, collectionsProbe, importStep, diagInit, hc]
        · have h2 : (test_database (.imported (some handle)) env).database =
              "⚠️  Connected but Error: " ++ String.mk (e.data.take 50) := by
            simp [test_database, envFlagsStep, collectionsProbe, importStep, diagInit, hc]
          rw [h2]
          exact str_ne_empty "⚠️  Connected but Error: " (String.mk (e.data.take 50)) (by decide)

/-! ### C6 -/

/-- C6: an `ImportError` on the database module leaves the `database` field at
the not-available marking ("❌ Database module not found (run enable-database
first)"); a successful import whose handle is `None` marks it
"⚠️  Available but not initialized"; a non-null handle is first marked
"✅ Available" by the availability step (lines 144-148 of src/main.py), before
the collection probe refines that status. -/
theorem test_database_availability_marks (env : Env) (db : DbHandle) :
    (test_database .importErr env).database =
      "❌ Database module not found (run enable-database first)" ∧
    (test_database (.imported none) env).database = "⚠️  Available but not initialized" ∧
    (importStep (.imported (some db))).database = "✅ Available" :=
  ⟨rfl, rfl, rfl⟩

/-! ### C7 -/

/-- C7: with a non-null handle, a failing `list_collection_names` downgrades
the `database` field to the "⚠️  Connected but Error: ..." status whose error
text is truncated to at most 50 characters while `connection_status` stays
"Connected"; a successful listing upgrades the field to
"✅ Connected & Working" and includes at most the first 10 collection names. -/
theorem test_database_collections_step (env : Env) (db : DbHandle) (e : String)
    (cols : List String) :
    (db.listCollectionsResult = .error e →
      (test_database (.imported (some db)) env).database =
        "⚠️  Connected but Error: " ++ String.mk (e.data.take 50) ∧
      (test_database (.imported (some db)) env).connection_status = "Connected" ∧
      (e.data.take 50).length ≤ 50) ∧
    (db.listCollectionsResult = .ok cols →
      (test_database (.imported (some db)) env).database = "✅ Connected & Working" ∧
      (test_database (.imported (some db)) env).collections = cols.take 10 ∧
      (test_database (.imported (some db)) env).collections.length ≤ 10 ∧
      (test_database (.imported (some db)) env).connection_status = "Connected") := by
  constructor
  · intro hc
    refine ⟨?_, ?_, ?_⟩
    · simp [test_database, envFlagsStep, collectionsProbe, importStep, diagInit, hc]
    · simp [test_database, envFlagsStep, collectionsProbe, importStep, diagInit, hc]
    · simp [List.length_take]
  · intro hc
    refine ⟨?_, ?_, ?_, ?_⟩ <;>
      simp [test_database, envFlagsStep, collectionsProbe, importStep, hc, List.length_take]

/-- C7 witness: a handle whose listing raises `boom` yields the truncated
downgraded status with the connection determination intact. -/
theorem test_database_collections_step_witness :
    (test_database (.imported (some dbBoom)) envNone).database =
      "⚠️  Connected but Error: boom" ∧
    (test_database (.imported (some dbBoom)) envNone).connection_status = "Connected" := by
  have h := (test_database_collections_step envNone dbBoom "boom" []).1 rfl
  exact ⟨h.1.trans rfl, h.2.1⟩

/-! ### C8 -/

/-- C8 counterexample: with `EMAIL_TO` set (to the empty string) and
`PERSONAL_EMAIL` unset, the resolved recipient is the hard-coded literal
address, not the value of `EMAIL_TO` — Python `or` treats a set-but-empty
variable like an unset one, so the claim's "if set" is false as stated. -/
theorem resolveRecipient_counterexample :
    envToEmpty "EMAIL_TO" = some "" ∧
    resolveRecipient envToEmpty = "hemenbhasin@gmail.com" ∧
    resolveRecipient envToEmpty ≠ "" :=
  ⟨rfl, rfl, by decide⟩

/-- C8 amended: `send_email_smtp` resolves its recipient as `EMAIL_TO` if set
to a nonempty value, else `PERSONAL_EMAIL` if set to a nonempty value, else
the fixed literal address; its sender as `EMAIL_FROM` if set to a nonempty
value, else `EMAIL_USER`; and its port string as `EMAIL_PORT` with default
"587" — all read from the environment passed at call time, and handed to the
SMTP session (observed here through a probing relay behaviour). -/
theorem send_email_resolution (env : Env) :
    (∀ v, env "EMAIL_TO" = some v → v ≠ "" → resolveRecipient env = v) ∧
    (truthy (env "EMAIL_TO") = false →
      ∀ v, env "PERSONAL_EMAIL" = some v → v ≠ "" → resolveRecipient env = v) ∧
    (truthy (env "EMAIL_TO") = false → truthy (env "PERSONAL_EMAIL") = false →
      resolveRecipient env = "hemenbhasin@gmail.com") ∧
    (∀ v, env "EMAIL_FROM" = some v → v ≠ "" → resolveSender env = some v) ∧
    (truthy (env "EMAIL_FROM") = false → resolveSender env = env "EMAIL_USER") ∧
    (resolvePortStr env = (env "EMAIL_PORT").getD "587") ∧
    (truthy (env "EMAIL_HOST") = true → truthy (env "EMAIL_USER") = true →
      truthy (env "EMAIL_PASS") = true →
      ∀ p, pythonIntParse (resolvePortStr env) = some p → ∀ s b t,
        send_email_smtp env probeNet s b t =
          .error (.smtpError (resolveRecipient env ++ "|" ++ (resolveSender env).getD ""))) := by
  refine ⟨?_, ?_, ?_, ?_, ?_, rfl, ?_⟩
  · intro v hv hne
    have ht : truthy (env "EMAIL_TO") = true := by simp [truthy, hv, hne]
    simp only [resolveRecipient, ht, if_true]
    simp [hv]
  · intro ht v hv hne
    have hp : truthy (env "PERSONAL_EMAIL") = true := by simp [truthy, hv, hne]
    simp only [resolveRecipient, ht, hp, if_true, Bool.false_eq_true, if_false]
    simp [hv]
  · intro ht hp
    simp [resolveRecipient, ht, hp]
  · intro v hv hne
    have hf : truthy (env "EMAIL_FROM") = true := by simp [truthy, hv, hne]
    simp only [resolveSender, hf, if_true]
    exact hv
  · intro hf
    simp [resolveSender, hf]
  · intro hh hu hp p hport s b t
    simp [send_email_smtp, smtpParamsOf, hport, hh, hu, hp, probeNet]

/-- C8 amended witness: with host, user, pass, `EMAIL_FROM` and `EMAIL_TO`
all set, the probing relay observes exactly the resolved recipient and
sender. -/
theorem send_email_resolution_witness :
    send_email_smtp envFull probeNet "s" "b" "t" =
      .error (.smtpError "to@x.com|from@x.com") := by
  have h := (send_email_resolution envFull).2.2.2.2.2.2 rfl rfl rfl 587 rfl "s" "b" "t"
  exact h.trans rfl

/-! ### C9 -/

/-- A prefix of a take is a prefix of the whole list. -/
theorem prefixOf_of_take (p : List Char) : ∀ (l : List Char) (n : Nat),
    p.isPrefixOf (l.take n) = true → p.isPrefixOf l = true := by
  induction p with
  | nil => intro l n _; simp [List.isPrefixOf]
  | cons a p ih =>
    intro l n h
    cases l with
    | nil => simp at h
    | cons b l =>
      cases n with
      | zero => simp [List.isPrefixOf] at h
      | succ n =>
        simp only [List.take, List.isPrefixOf, Bool.and_eq_true] at h ⊢
        exact ⟨h.1, ih l n h.2⟩

/-- The needle-containment test used to state the secrecy claim: `true` iff
`needle` occurs as a contiguous segment of the haystack. -/
def containsSeg (needle : List Char) : List Char → Bool
  | [] => needle.isEmpty
  | c :: t => needle.isPrefixOf (c :: t) || containsSeg needle t

/-- An occurrence in a truncated list is an occurrence in the full list. -/
theorem containsSeg_of_take (p : List Char) : ∀ (l : List Char) (n : Nat),
    containsSeg p (l.take n) = true → containsSeg p l = true := by
  intro l
  induction l with
  | nil => intro n h; simpa using h
  | cons c t ih =>
    intro n h
    cases n with
    | zero =>
      have hp : p.isEmpty = true := by simpa [containsSeg] using h
      have hp2 : p = [] := by simpa [List.isEmpty_iff] using hp
      subst hp2
      simp [containsSeg, List.isPrefixOf]
    | succ n =>
      simp only [containsSeg, Bool.or_eq_true] at h ⊢
      rcases h with h | h
      · exact Or.inl (prefixOf_of_take p (c :: t) (n + 1) (by simpa [List.take] using h))
      · exact Or.inr (ih n h)

/-- C9: for every failure of the send attempt during connect/auth/send (the
`smtpError` branch, whose message comes from the external SMTP library), if
the library's error messages never contain the secret `p` (in particular the
`EMAIL_PASS` value), then neither the captured `delivery_error` local nor the
truncated `error` field of the constructed `ContactLead` contains `p`.  The
in-code failure paths (`int()` and the configuration check) never reach the
relay at all, so the handler itself introduces no occurrence of the
password. -/
theorem delivery_error_password_free (env : Env) (net : Net) (store : Store)
    (msg : ContactMessage) (p e : String)
    (hnet : ∀ q err, net q = .error err → containsSeg p.data err.data = false)
    (hfail : contactSend env net msg = .error (.smtpError e)) :
    containsSeg p.data e.data = false ∧
    (contact env net store msg).deliveryError = some e ∧
    (∀ s, (contact env net store msg).lead.error = some s →
      containsSeg p.data s.data = false) := by
  have hfail2 := hfail
  have hfree : containsSeg p.data e.data = false := by
    unfold contactSend send_email_smtp at hfail2
    cases hp : pythonIntParse (resolvePortStr env) with
    | none =>
      rw [hp] at hfail2
      simp at hfail2
    | some port =>
      rw [hp] at hfail2
      by_cases hc : (!truthy (env "EMAIL_HOST") || !truthy (env "EMAIL_USER") ||
          !truthy (env "EMAIL_PASS")) = true
      · simp [hc] at hfail2
      · simp only [Bool.not_eq_true] at hc
        simp only [hc, Bool.false_eq_true, if_false] at hfail2
        cases hq : net (smtpParamsOf env port "New portfolio contact" (renderHtml msg)
            (renderText msg)) with
        | ok u => rw [hq] at hfail2; simp at hfail2
        | error err =>
          rw [hq] at hfail2
          simp only [Except.error.injEq, PyError.smtpError.injEq] at hfail2
          subst hfail2
          exact hnet _ _ hq
  refine ⟨hfree, ?_, ?_⟩
  · simp [contact, deliveryOf, hfail, pyErrStr]
  · intro s hs
    have hs2 : (if pyErrStr (.smtpError e) != "" then
        some (String.mk ((pyErrStr (.smtpError e)).data.take 300)) else none) = some s := by
      simpa [contact, deliveryOf, hfail, leadError] using hs
    by_cases he : (pyErrStr (.smtpError e) != "") = true
    · rw [if_pos he] at hs2
      have hs3 : s = String.mk (e.data.take 300) := by
        simpa [pyErrStr] using hs2.symm
      subst hs3
      cases hcs : containsSeg p.data (String.mk (e.data.take 300)).data with
      | false => rfl
      | true =>
        have : containsSeg p.data e.data = true := containsSeg_of_take p.data e.data 300 hcs
        rw [hfree] at this
        exact absurd this (by simp)
    · rw [if_neg he] at hs2
      exact absurd hs2 (by simp)

/-- C9 witness: with a configured environment, a relay whose failures say
"connection refused", and the password `hunter2`, the captured delivery error
is exactly the relay's message. -/
theorem delivery_error_password_free_witness :
    (contact envOk net0 store0 msgAda).deliveryError = some "connection refused" := by
  have h := delivery_error_password_free envOk net0 store0 msgAda "hunter2" "connection refused"
    (by
      intro q err hq
      have h2 : Except.error (ε := String) (α := Unit) "connection refused" = .error err := hq
      have h3 : "connection refused" = err := by injection h2
      rw [← h3]
      decide)
    rfl
  exact h.2.1

/-! ### C10 -/

/-- C10 counterexample: a send failure whose exception message is empty (for
example, Python `str(TimeoutError())` is `""`) makes the `if delivery_error`
truthiness test on line 110 of src/main.py pick `None`, so the constructed
lead has `delivered = false` together with `error = None` — the claimed
"delivered iff error is None" is false as stated. -/
theorem contact_lead_empty_error_counterexample :
    (contact envOk netEmptyErr store0 msgAda).lead.delivered = false ∧
    (contact envOk netEmptyErr store0 msgAda).lead.error = none :=
  ⟨rfl, rfl⟩

/-- C10 amended: every `ContactLead` constructed by the handler copies the
validated submission's `name`, `email` and `message` unchanged; `delivered`
is true exactly when the send attempt succeeded; `delivered = true` implies
`error = None`; an `error` field, when present, implies `delivered = false`
and has length at most 300; and on a send failure with a nonempty exception
message the `error` field holds that message truncated to 300 characters
(only an empty exception message yields `delivered = false` with
`error = None`). -/
theorem contact_lead_invariant (env : Env) (net : Net) (store : Store) (msg : ContactMessage) :
    (contact env net store msg).lead.name = msg.name ∧
    (contact env net store msg).lead.email = msg.email ∧
    (contact env net store msg).lead.message = msg.message ∧
    ((contact env net store msg).lead.delivered = true ↔ contactSend env net msg = .ok ()) ∧
    ((contact env net store msg).lead.delivered = true →
      (contact env net store msg).lead.error = none) ∧
    (∀ s, (contact env net store msg).lead.error = some s →
      s.length ≤ 300 ∧ (contact env net store msg).lead.delivered = false) ∧
    (∀ e, contactSend env net msg = .error e → pyErrStr e ≠ "" →
      (contact env net store msg).lead.error = some (String.mk ((pyErrStr e).data.take 300))) := by
  cases h : contactSend env net msg with
  | ok u =>
    cases u
    refine ⟨rfl, rfl, rfl, ?_, ?_, ?_, ?_⟩
    · simp [contact, deliveryOf, h]
    · intro _
      simp [contact, deliveryOf, h, leadError]
    · intro s hs
      simp [contact, deliveryOf, h, leadError] at hs
    · intro e he _
      exact absurd he (by simp)
  | error er =>
    refine ⟨rfl, rfl, rfl, ?_, ?_, ?_, ?_⟩
    · simp [contact, deliveryOf, h]
    · intro hd
      simp [contact, deliveryOf, h] at hd
    · intro s hs
      have hs2 : (if pyErrStr er != "" then
          some (String.mk ((pyErrStr er).data.take 300)) else none) = some s := by
        simpa [contact, deliveryOf, h, leadError] using hs
      by_cases he : (pyErrStr er != "") = true
      · rw [if_pos he] at hs2
        have hs3 : s = String.mk ((pyErrStr er).data.take 300) := by
          exact (Option.some.inj hs2).symm
        constructor
        · rw [hs3]
          have : (String.mk ((pyErrStr er).data.take 300)).length =
              ((pyErrStr er).data.take 300).length := rfl
          rw [this, List.length_take]
          omega
        · simp [contact, deliveryOf, h]
      · rw [if_neg he] at hs2
        exact absurd hs2 (by simp)
    · intro e he hne
      have he2 : er = e := by
        injection he
      subst he2
      have he3 : (pyErrStr er != "") = true := by
        simpa using hne
      simp [contact, deliveryOf, h, leadError, he3]

/-- C10 amended witness: with nothing configured, the concrete run's lead
carries the truncated configuration-error message. -/
theorem contact_lead_invariant_witness :
    (contact envNone net0 store0 msgAda).lead.error =
      some (String.mk ((pyErrStr (.runtimeError configMsg)).data.take 300)) :=
  (contact_lead_invariant envNone net0 store0 msgAda).2.2.2.2.2.2
    (.runtimeError configMsg) rfl (by decide)
